import Mathlib

/-!
Shallow embedding of `src/accounts_receivable_aging_cash_forecasting_system.py`,
a Streamlit app that ingests invoice rows (uploaded or manually entered),
derives outstanding amounts, aging buckets and a cash forecast, and renders
summaries.  Dates are modelled as civil calendar dates with an explicit
day-count conversion (the arithmetic pandas performs on datetime columns);
monetary values are rationals; nullable columns (`NaT` / `NaN` after
`pd.to_datetime(..., errors="coerce")` / missing payments) are `Option`.
-/

/-- Calendar date (year, month, day), as held by `datetime.date` /
`pd.Timestamp`. -/
structure Date where
  year : Int
  month : Int
  day : Int
deriving DecidableEq, Repr

/-- Day count of a civil date (days since 1970-01-01, the standard
`days_from_civil` algorithm); models the day arithmetic pandas performs on
datetime columns, e.g. `(today - due_date).dt.days`. -/
def toDays (x : Date) : Int :=
  let y := if x.month ≤ 2 then x.year - 1 else x.year
  let era := y / 400
  let yoe := y - era * 400
  let mp := (x.month + 9) % 12
  let doy := (153 * mp + 2) / 5 + x.day - 1
  let doe := yoe * 365 + yoe / 4 - yoe / 100 + doy
  era * 146097 + doe - 719468

/-- One row of the combined `ar_df` after the type coercions of section 5
(lines 192-198): date columns went through
`pd.to_datetime(..., errors="coerce")` so they are nullable, and the
payment-amount column may hold nulls (or be absent, which the model folds
into every row holding `none`). -/
structure Row where
  customer_name : String
  invoice_number : String
  invoice_date : Option Date
  due_date : Option Date
  amount : ℚ
  payment_date : Option Date
  payment_amount : Option ℚ
deriving DecidableEq, Repr

/-- Line 198: `ar_df["payment amount"].fillna(0)` (and line 196: a wholly
absent column defaults to 0). -/
def payment_amount_filled (r : Row) : ℚ :=
  r.payment_amount.getD 0

/-- Pandas `Series.clip(lower=lo)` on a single value. -/
def clip_lower (x lo : ℚ) : ℚ :=
  max x lo

/-- Line 202: `(ar_df["amount"] - ar_df["payment amount"]).clip(lower=0)`. -/
def outstanding_amount (r : Row) : ℚ :=
  clip_lower (r.amount - payment_amount_filled r) 0

/-- Line 203: `"Paid" if x == 0 else "Unpaid"` applied to the outstanding
amount. -/
def payment_status (r : Row) : String :=
  if outstanding_amount r = 0 then "Paid" else "Unpaid"

/-- Lines 206-210: the invoice-status radio filter applied to `ar_df`. -/
def apply_status_filter (status_filter : String) (rows : List Row) : List Row :=
  if status_filter = "Unpaid Only" then
    rows.filter (fun r => decide (payment_status r = "Unpaid"))
  else if status_filter = "Paid Only" then
    rows.filter (fun r => decide (payment_status r = "Paid"))
  else
    rows

/-- Line 216: `(today - filtered_df["due date"]).dt.days`; a null (`NaT`)
due date yields a null (`NaN`) day count. -/
def days_outstanding (today : Date) (r : Row) : Option Int :=
  r.due_date.map (fun d => toDays today - toDays d)

/-- Line 217: `.loc[days < 0] = 0` — entries where the comparison holds are
zeroed; a `NaN` entry compares false with 0 and is left untouched, which is
exactly `Option.map` leaving `none` untouched. -/
def days_outstanding_clamped (today : Date) (r : Row) : Option Int :=
  (days_outstanding today r).map (fun x => if x < 0 then 0 else x)

/-- Float comparison `days <= c` where `days` may be `NaN`: any comparison
against `NaN` is false. -/
def nan_le (x : Option Int) (c : Int) : Bool :=
  match x with
  | none => false
  | some v => decide (v ≤ c)

/-- Lines 219-227: the `aging_category` helper, applied to a possibly-`NaN`
day count. -/
def aging_category (days : Option Int) : String :=
  if nan_le days 30 then "0-30"
  else if nan_le days 60 then "31-60"
  else if nan_le days 90 then "61-90"
  else ">90"

/-- Line 229: the `aging category` column. -/
def aging_category_col (today : Date) (r : Row) : String :=
  aging_category (days_outstanding_clamped today r)

/-- Lexicographic order on character lists (the ascending string order a
pandas groupby sorts its keys by). -/
def chars_le : List Char → List Char → Bool
  | [], _ => true
  | _ :: _, [] => false
  | a :: as, b :: bs =>
    if a = b then chars_le as bs
    else decide (a < b)

instance : DecidableRel (fun a b : String => chars_le a.data b.data = true) :=
  fun _ _ => inferInstance

/-- Pandas `groupby(key)[val].sum()` over non-null string keys: the distinct
keys, sorted ascending (groupby sorts its keys), each paired with the sum of
`val` over its group. -/
def groupby_sum {α : Type} (key : α → String) (val : α → ℚ) (rows : List α) :
    List (String × ℚ) :=
  (List.insertionSort (fun a b => chars_le a.data b.data = true) (rows.map key).dedup).map
    (fun k => (k, ((rows.filter (fun r => decide (key r = k))).map val).sum))

/-- Pandas `.reindex(idx, fill_value=0)` on a keyed series: one entry per
index element, taking the grouped value when the key is present and 0
otherwise. -/
def reindex_fill (idx : List String) (g : List (String × ℚ)) : List (String × ℚ) :=
  idx.map (fun c => (c, (((g.find? (fun p => decide (p.1 = c))).map Prod.snd).getD 0)))

/-- The fixed bucket order of lines 230-232. -/
def aging_order : List String :=
  ["0-30", "31-60", "61-90", ">90"]

/-- Lines 230-232: `groupby("aging category")["outstanding amount"].sum()
.reindex(["0-30","31-60","61-90",">90"], fill_value=0)`. -/
def aging_summary (today : Date) (rows : List Row) : List (String × ℚ) :=
  reindex_fill aging_order (groupby_sum (aging_category_col today) outstanding_amount rows)

/-- Lines 294-298: the per-customer restriction
`filtered_df[filtered_df["customer name"] == selected_customer]` followed by
the same groupby/reindex. -/
def customer_aging (today : Date) (rows : List Row) (selected_customer : String) :
    List (String × ℚ) :=
  aging_summary today (rows.filter (fun r => decide (r.customer_name = selected_customer)))

/-- One row of `cash_df`: the underlying row together with the two columns
added by `create_cash_df` (line 261's re-`to_datetime` is the identity on
already-coerced dates). -/
structure CashRow where
  row : Row
  expected_payment : Option Date
  cash_amount : ℚ
deriving DecidableEq, Repr

/-- Lines 244-262: `create_cash_df`.  The `Both` branch's
`df.loc[df["outstanding amount"] == 0, "Cash Amount"] = df["payment amount"]`
overwrite is the per-row conditional, and
`df["payment date"].fillna(df["due date"])` is the per-row fallback. -/
def create_cash_df (rows : List Row) (cash_option : String) : List CashRow :=
  if cash_option = "Unpaid Only" then
    (rows.filter (fun r => decide (0 < outstanding_amount r))).map
      (fun r => { row := r, expected_payment := r.due_date,
                  cash_amount := outstanding_amount r })
  else if cash_option = "Paid Only" then
    (rows.filter (fun r => decide (outstanding_amount r = 0))).map
      (fun r => { row := r, expected_payment := r.payment_date,
                  cash_amount := payment_amount_filled r })
  else
    rows.map
      (fun r => { row := r
                  expected_payment :=
                    match r.payment_date with
                    | some p => some p
                    | none => r.due_date
                  cash_amount :=
                    if outstanding_amount r = 0 then payment_amount_filled r
                    else outstanding_amount r })

/-- Lines 269-274: the `Bucket Date` column as a day count.  `Daily` keeps
the expected-payment date; `Weekly` is `.dt.to_period("W").dt.start_time`,
the Monday opening the Mon-Sun week (day 0 = 1970-01-01 was a Thursday, so
`(d + 3) % 7` is the Monday-based weekday); `Monthly` is
`.dt.to_period("M").dt.start_time`, the first of the month. -/
def bucket_date (bucket : String) (e : Date) : Int :=
  if bucket = "Weekly" then toDays e - (toDays e + 3) % 7
  else if bucket = "Monthly" then toDays { year := e.year, month := e.month, day := 1 }
  else toDays e

/-- Pandas `groupby(key)[val].sum()` where the key column is nullable:
rows with a null key are dropped (`dropna=True` default), the remaining
distinct keys are sorted ascending. -/
def groupby_sum_dropna {α : Type} (key : α → Option Int) (val : α → ℚ)
    (rows : List α) : List (Int × ℚ) :=
  (List.insertionSort (· ≤ ·) (rows.filterMap key).dedup).map
    (fun k => (k, ((rows.filter (fun r => decide (key r = some k))).map val).sum))

/-- Lines 276-282: `cash_df.groupby("Bucket Date")["Cash Amount"].sum()
.reset_index().sort_values("Bucket Date")` — the trailing `sort_values` is
the ascending key order the groupby already produces. -/
def cash_forecast (bucket : String) (crs : List CashRow) : List (Int × ℚ) :=
  groupby_sum_dropna (fun cr => cr.expected_payment.map (bucket_date bucket))
    (fun cr => cr.cash_amount) crs

/-- Line 329: the `Total Accounts Receivable` metric,
`filtered_df["outstanding amount"].sum()`. -/
def total_outstanding (rows : List Row) : ℚ :=
  (rows.map outstanding_amount).sum

/-- Line 330: the `Total Expected Cash` metric,
`cash_forecast["Cash Amount"].sum()`. -/
def total_expected_cash (fc : List (Int × ℚ)) : ℚ :=
  (fc.map Prod.snd).sum

/-- Helper for `clean_column`: collapse each run of spaces to a single
space (the `re.sub(r"\s+", " ", ...)` step; after the character filter only
spaces remain of whitespace).  The flag records whether the previous kept
character was a space. -/
def collapse_spaces : List Char → Bool → List Char
  | [], _ => []
  | c :: rest, prev_space =>
    if c = ' ' then
      if prev_space then collapse_spaces rest true
      else ' ' :: collapse_spaces rest true
    else c :: collapse_spaces rest false

/-- Python `str.strip` whitespace set (the characters `strip()` removes). -/
def py_whitespace (c : Char) : Bool :=
  c = ' ' || c = '\t' || c = '\n' || c = '\r' || c = '\x0b' || c = '\x0c'

/-- Python `str.strip`: drop leading and trailing whitespace. -/
def py_strip (l : List Char) : List Char :=
  ((l.dropWhile py_whitespace).reverse.dropWhile py_whitespace).reverse

/-- Python `str.lower` on an ASCII character. -/
def ascii_lower (c : Char) : Char :=
  if 'A' ≤ c ∧ c ≤ 'Z' then Char.ofNat (c.toNat + 32) else c

/-- Lines 52-56: `clean_column` — strip, lowercase, drop characters outside
`[a-z0-9 ]`, collapse whitespace runs. -/
def clean_column (s : String) : String :=
  let kept := ((py_strip s.data).map ascii_lower).filter
    (fun c => decide (('a' ≤ c ∧ c ≤ 'z') ∨ ('0' ≤ c ∧ c ≤ '9') ∨ c = ' '))
  String.mk (collapse_spaces kept false)

/-- Lines 63-85: the canonical column names with their accepted aliases. -/
def required_columns : List (String × List String) :=
  [("customer name", ["customer name", "cust name", "client name", "customer"]),
   ("invoice number", ["invoice number", "invoice no", "inv no", "vendor name"]),
   ("invoice date", ["invoice date", "inv date", "date of invoice", "billing date"]),
   ("due date", ["due date", "payment due date"]),
   ("amount", ["amount", "invoice amount", "total"]),
   ("payment date", ["payment date", "paid date", "date paid", "payment received"]),
   ("payment amount", ["payment amount", "paid amount", "amount paid"])]

/-- Lines 91-98: build `rename_map` — for each canonical name, the first
alias whose cleaned form occurs among the (already cleaned) columns maps to
the canonical name. -/
def build_rename_map : List (String × List String) → List String →
    List (String × String)
  | [], _ => []
  | (canonical, aliases) :: rest, cols =>
    (match aliases.find? (fun a => decide (clean_column a ∈ cols)) with
     | some a => [(clean_column a, canonical)]
     | none => []) ++ build_rename_map rest cols

/-- Lines 90-103: `standardize_columns` — rename the columns through the
alias map and report the canonical names still missing. -/
def standardize_columns (cols : List String) : List String × List String :=
  let rename_map := build_rename_map required_columns cols
  let renamed := cols.map
    (fun c => ((rename_map.find? (fun p => decide (p.1 = c))).map Prod.snd).getD c)
  (renamed, (required_columns.map Prod.fst).filter (fun c => decide (¬ c ∈ renamed)))

/-- Lines 58 and 105: clean the uploaded headers, standardize them, and
return the missing canonical columns. -/
def upload_missing_cols (raw_cols : List String) : List String :=
  (standardize_columns (raw_cols.map clean_column)).2

/-- Lines 107-112: the upload is accepted (no `st.error` + `st.stop`) iff
no canonical column is reported missing. -/
def upload_accepted (raw_cols : List String) : Bool :=
  decide (upload_missing_cols raw_cols = [])

/-- The fields of one manual-entry submission (the widget values of lines
125-132; `payment_amount` is 0.0 when no payment was made). -/
structure ManualEntry where
  customer_name : String
  invoice_number : String
  invoice_date : Date
  due_date : Date
  amount : ℚ
  payment_date : Option Date
  payment_amount : ℚ
deriving DecidableEq, Repr

/-- Python `date.__lt__`: lexicographic on (year, month, day). -/
def date_lt (a b : Date) : Bool :=
  decide (a.year < b.year) ||
    (decide (a.year = b.year) &&
      (decide (a.month < b.month) ||
        (decide (a.month = b.month) && decide (a.day < b.day))))

/-- Outcome of a manual-form submission: an `st.error` message, or an
`st.success` message after appending. -/
inductive SubmitOutcome where
  | error_msg (msg : String)
  | added_msg (msg : String)
deriving DecidableEq, Repr

/-- Lines 139-157: the submit handler.  Python truthiness of a string is
non-emptiness, so `not customer_name or not invoice_number` is the emptiness
test; on success the invoice dict of the submitted fields is appended to
`st.session_state.manual_invoices`. -/
def manual_form_submit (state : List ManualEntry) (e : ManualEntry) :
    List ManualEntry × SubmitOutcome :=
  if e.customer_name = "" ∨ e.invoice_number = "" then
    (state, SubmitOutcome.error_msg "Customer Name and Invoice Number are required.")
  else if date_lt e.due_date e.invoice_date then
    (state, SubmitOutcome.error_msg "Due Date cannot be before Invoice Date.")
  else
    (state ++ [e],
     SubmitOutcome.added_msg
       ("Invoice " ++ e.invoice_number ++ " for " ++ e.customer_name ++ " added!"))

/-!
General lemmas about the groupby / reindex combinators.
-/

/-- Summing a per-key function over a duplicate-free key list after bumping
one key's value by `c` bumps the total by `c`. -/
theorem sum_map_add_ite {κ : Type} [DecidableEq κ] (ks : List κ) (hnd : ks.Nodup)
    (k0 : κ) (hk : k0 ∈ ks) (f : κ → ℚ) (c : ℚ) :
    (ks.map (fun k => f k + if k = k0 then c else 0)).sum = (ks.map f).sum + c := by
  induction ks with
  | nil => cases hk
  | cons k ks ih =>
    rcases List.nodup_cons.mp hnd with ⟨hknot, hnd2⟩
    rcases List.mem_cons.mp hk with hk1 | hk2
    · subst hk1
      simp only [List.map_cons, List.sum_cons, if_pos rfl]
      have hrest : ks.map (fun x => f x + if x = k0 then c else 0) = ks.map f := by
        apply List.map_congr_left
        intro a ha
        have hne : a ≠ k0 := fun h => hknot (h ▸ ha)
        simp [hne]
      rw [hrest]
      simp only [if_true]
      ring
    · have hkk0 : k ≠ k0 := fun h => hknot (h ▸ hk2)
      simp only [List.map_cons, List.sum_cons, if_neg hkk0]
      rw [ih hnd2 hk2]
      ring

/-- Partition identity: grouping the rows by a key that always lands in a
duplicate-free key list and summing the groups recovers the total sum. -/
theorem groupby_total {α κ : Type} [DecidableEq κ] (key : α → κ) (val : α → ℚ)
    (rows : List α) (ks : List κ) (hnd : ks.Nodup) (hcov : ∀ r ∈ rows, key r ∈ ks) :
    (ks.map (fun k => ((rows.filter (fun r => decide (key r = k))).map val).sum)).sum
      = (rows.map val).sum := by
  induction rows with
  | nil => simp
  | cons r rows ih =>
    have hcov2 : ∀ x ∈ rows, key x ∈ ks := fun x hx => hcov x (List.mem_cons_of_mem _ hx)
    have hr : key r ∈ ks := hcov r (List.mem_cons_self _ _)
    have hstep :
        (ks.map (fun k => (((r :: rows).filter (fun x => decide (key x = k))).map val).sum))
          = ks.map (fun k =>
              ((rows.filter (fun x => decide (key x = k))).map val).sum
                + if k = key r then val r else 0) := by
      apply List.map_congr_left
      intro k _
      by_cases h : key r = k
      · simp [List.filter_cons, h]
        ring
      · have h2 : ¬ k = key r := fun hh => h hh.symm
        simp [List.filter_cons, h, h2]
    rw [hstep, sum_map_add_ite ks hnd (key r) hr _ (val r), ih hcov2]
    simp [add_comm]

/-- Partition identity for a nullable key: rows with a null key are dropped,
grouping the rest by a covering duplicate-free key list and summing the
groups recovers the sum over the non-null-key rows. -/
theorem groupby_total_dropna {α : Type} (key : α → Option Int) (val : α → ℚ)
    (rows : List α) (ks : List Int) (hnd : ks.Nodup)
    (hcov : ∀ r ∈ rows, ∀ k, key r = some k → k ∈ ks) :
    (ks.map (fun k => ((rows.filter (fun r => decide (key r = some k))).map val).sum)).sum
      = ((rows.filter (fun r => (key r).isSome)).map val).sum := by
  induction rows with
  | nil => simp
  | cons r rows ih =>
    have hcov2 : ∀ x ∈ rows, ∀ k, key x = some k → k ∈ ks :=
      fun x hx => hcov x (List.mem_cons_of_mem _ hx)
    cases hkey : key r with
    | none =>
      have hstep :
          (ks.map (fun k => (((r :: rows).filter (fun x => decide (key x = some k))).map val).sum))
            = ks.map (fun k => ((rows.filter (fun x => decide (key x = some k))).map val).sum) := by
        apply List.map_congr_left
        intro k _
        simp [List.filter_cons, hkey]
      rw [hstep, ih hcov2]
      simp [List.filter_cons, hkey]
    | some k0 =>
      have hr : k0 ∈ ks := hcov r (List.mem_cons_self _ _) k0 hkey
      have hstep :
          (ks.map (fun k => (((r :: rows).filter (fun x => decide (key x = some k))).map val).sum))
            = ks.map (fun k =>
                ((rows.filter (fun x => decide (key x = some k))).map val).sum
                  + if k = k0 then val r else 0) := by
        apply List.map_congr_left
        intro k _
        by_cases h : k = k0
        · subst h
          simp [List.filter_cons, hkey]
          ring
        · have h2 : ¬ key r = some k := by
            rw [hkey]
            simp
            exact fun hh => h hh.symm
          simp [List.filter_cons, h2, h]
      rw [hstep, sum_map_add_ite ks hnd k0 hr _ (val r), ih hcov2]
      simp [List.filter_cons, hkey, add_comm]

/-- Looking a key up in a keyed list built by mapping over a key list finds
the key's value exactly when the key occurs. -/
theorem find_map_keys {κ : Type} [DecidableEq κ] (ks : List κ) (f : κ → ℚ) (c : κ) :
    (ks.map (fun k => (k, f k))).find? (fun p => decide (p.1 = c))
      = if c ∈ ks then some (c, f c) else none := by
  induction ks with
  | nil => simp
  | cons k ks ih =>
    by_cases h : k = c
    · subst h
      rw [List.map_cons, List.find?_cons_of_pos _ (by simp)]
      simp
    · rw [List.map_cons, List.find?_cons_of_neg _ (by simp [h]), ih]
      by_cases hc : c ∈ ks
      · simp [hc]
      · have hck : ¬ c ∈ k :: ks := by
          intro hmem
          rcases List.mem_cons.mp hmem with h1 | h1
          · exact h h1.symm
          · exact hc h1
        simp [hc, hck]

/-- The outstanding amount is clipped at 0 from below. -/
theorem outstanding_amount_nonneg (r : Row) : 0 ≤ outstanding_amount r :=
  le_max_right _ _

/-- The aging category is always one of the four fixed bucket labels. -/
theorem aging_category_mem (d : Option Int) : aging_category d ∈ aging_order := by
  by_cases h1 : nan_le d 30 = true <;> by_cases h2 : nan_le d 60 = true <;>
    by_cases h3 : nan_le d 90 = true <;>
      simp [aging_category, aging_order, h1, h2, h3]

/-- Normal form of the aging summary: one entry per fixed category, holding
the sum of the outstanding amounts of the rows in that category. -/
theorem aging_summary_eq (today : Date) (rows : List Row) :
    aging_summary today rows
      = aging_order.map (fun c => (c,
          ((rows.filter (fun r => decide (aging_category_col today r = c))).map
            outstanding_amount).sum)) := by
  unfold aging_summary reindex_fill groupby_sum
  apply List.map_congr_left
  intro c _
  rw [find_map_keys]
  by_cases hc : c ∈ List.insertionSort (fun a b => chars_le a.data b.data = true)
      ((rows.map (aging_category_col today)).dedup)
  · simp [hc]
  · have hnotin : ¬ c ∈ rows.map (aging_category_col today) := by
      intro hmem
      exact hc (((List.perm_insertionSort _ _).mem_iff).mpr (List.mem_dedup.mpr hmem))
    have hfil : rows.filter (fun r => decide (aging_category_col today r = c)) = [] := by
      rw [List.filter_eq_nil_iff]
      intro a ha
      simp only [decide_eq_true_eq]
      intro h
      exact hnotin (List.mem_map.mpr ⟨a, ha, h⟩)
    simp [hc, hfil]

/-- The first components of a keyed list built over a key list are the keys. -/
theorem map_fst_keyed {κ : Type} (ks : List κ) (f : κ → ℚ) :
    ((ks.map (fun k => (k, f k))).map Prod.fst) = ks := by
  rw [List.map_map]
  exact List.map_id ks

/-- The bucket dates of the cash forecast are sorted ascending. -/
theorem cash_forecast_sorted_keys (bucket : String) (crs : List CashRow) :
    List.Sorted (· ≤ ·) ((cash_forecast bucket crs).map Prod.fst) := by
  unfold cash_forecast groupby_sum_dropna
  rw [map_fst_keyed]
  exact List.sorted_insertionSort _ _

/-- The bucket sums of the cash forecast total the cash amounts of the rows
whose expected payment date is non-null (the groupby drops null keys). -/
theorem cash_forecast_total (bucket : String) (crs : List CashRow) :
    total_expected_cash (cash_forecast bucket crs)
      = ((crs.filter (fun cr => cr.expected_payment.isSome)).map
          (fun cr => cr.cash_amount)).sum := by
  unfold total_expected_cash cash_forecast groupby_sum_dropna
  rw [List.map_map]
  have hnd : (List.insertionSort (· ≤ ·)
      ((crs.filterMap (fun cr => cr.expected_payment.map (bucket_date bucket))).dedup)).Nodup :=
    ((List.perm_insertionSort _ _).nodup_iff).mpr (List.nodup_dedup _)
  have hcov : ∀ cr ∈ crs, ∀ k,
      (fun cr : CashRow => cr.expected_payment.map (bucket_date bucket)) cr = some k →
        k ∈ List.insertionSort (· ≤ ·)
          ((crs.filterMap (fun cr => cr.expected_payment.map (bucket_date bucket))).dedup) := by
    intro cr hcr k hk
    exact ((List.perm_insertionSort _ _).mem_iff).mpr
      (List.mem_dedup.mpr (List.mem_filterMap.mpr ⟨cr, hcr, hk⟩))
  have h := groupby_total_dropna
    (fun cr : CashRow => cr.expected_payment.map (bucket_date bucket))
    (fun cr => cr.cash_amount) crs
    (List.insertionSort (· ≤ ·)
      ((crs.filterMap (fun cr => cr.expected_payment.map (bucket_date bucket))).dedup))
    hnd hcov
  have hpred : ∀ cr ∈ crs,
      ((cr.expected_payment.map (bucket_date bucket)).isSome) = cr.expected_payment.isSome := by
    intro cr _
    cases cr.expected_payment <;> rfl
  rw [List.filter_congr hpred] at h
  exact h

/-!
Claim theorems.
-/

/-- Claim C1: for every row of the merged table, the derived outstanding
amount equals `max(amount - payment_amount, 0)` (hence is never negative),
and the derived payment status is `"Paid"` iff the outstanding amount
equals 0, otherwise `"Unpaid"`. -/
theorem claim_c1 (r : Row) :
    outstanding_amount r = max (r.amount - payment_amount_filled r) 0
      ∧ 0 ≤ outstanding_amount r
      ∧ (payment_status r = "Paid" ↔ outstanding_amount r = 0)
      ∧ (payment_status r = "Unpaid" ↔ outstanding_amount r ≠ 0) := by
  refine ⟨rfl, outstanding_amount_nonneg r, ?_, ?_⟩ <;>
    · unfold payment_status
      by_cases h : outstanding_amount r = 0 <;> simp [h]

/-- The `aging_category` helper on a non-null day count: the four buckets
with inclusive upper bounds. -/
theorem aging_category_some (d : Int) :
    (d ≤ 30 → aging_category (some d) = "0-30")
      ∧ (31 ≤ d ∧ d ≤ 60 → aging_category (some d) = "31-60")
      ∧ (61 ≤ d ∧ d ≤ 90 → aging_category (some d) = "61-90")
      ∧ (90 < d → aging_category (some d) = ">90") := by
  have h30 : nan_le (some d) 30 = decide (d ≤ 30) := rfl
  have h60 : nan_le (some d) 60 = decide (d ≤ 60) := rfl
  have h90 : nan_le (some d) 90 = decide (d ≤ 90) := rfl
  unfold aging_category
  rw [h30, h60, h90]
  split_ifs with h1 h2 h3 <;>
    refine ⟨fun hx => ?_, fun hx => ?_, fun hx => ?_, fun hx => ?_⟩ <;>
      first
        | rfl
        | (exfalso; simp only [decide_eq_true_eq] at *; omega)

/-- Claim C2: for every row with a due date, days outstanding equals today
minus the due date clamped below at 0, the aging category follows the four
inclusive-upper-bound buckets on that value, and a row whose due date is in
the future lands in `"0-30"`. -/
theorem claim_c2 (today : Date) (r : Row) (dd : Date) (h : r.due_date = some dd) :
    days_outstanding_clamped today r = some (max (toDays today - toDays dd) 0)
      ∧ (max (toDays today - toDays dd) 0 ≤ 30 → aging_category_col today r = "0-30")
      ∧ (31 ≤ max (toDays today - toDays dd) 0 ∧ max (toDays today - toDays dd) 0 ≤ 60 →
          aging_category_col today r = "31-60")
      ∧ (61 ≤ max (toDays today - toDays dd) 0 ∧ max (toDays today - toDays dd) 0 ≤ 90 →
          aging_category_col today r = "61-90")
      ∧ (90 < max (toDays today - toDays dd) 0 → aging_category_col today r = ">90")
      ∧ (toDays today < toDays dd → aging_category_col today r = "0-30") := by
  have hif : (if toDays today - toDays dd < 0 then 0 else toDays today - toDays dd)
      = max (toDays today - toDays dd) 0 := by
    split <;> omega
  have hd : days_outstanding_clamped today r = some (max (toDays today - toDays dd) 0) := by
    unfold days_outstanding_clamped days_outstanding
    rw [h]
    simp only [Option.map]
    rw [hif]
  have hcat : aging_category_col today r
      = aging_category (some (max (toDays today - toDays dd) 0)) := by
    unfold aging_category_col
    rw [hd]
  have hb := aging_category_some (max (toDays today - toDays dd) 0)
  refine ⟨hd, ?_, ?_, ?_, ?_, ?_⟩
  · intro hc
    rw [hcat]
    exact hb.1 hc
  · intro hc
    rw [hcat]
    exact hb.2.1 hc
  · intro hc
    rw [hcat]
    exact hb.2.2.1 hc
  · intro hc
    rw [hcat]
    exact hb.2.2.2 hc
  · intro hc
    rw [hcat]
    exact hb.1 (by omega)

/-- Scenario A row: amount 100, no payment, due 2025-09-02 (40 days before
the reference date 2025-10-12). -/
def rowA : Row :=
  { customer_name := "Acme", invoice_number := "1",
    invoice_date := some ⟨2025, 8, 1⟩, due_date := some ⟨2025, 9, 2⟩,
    amount := 100, payment_date := none, payment_amount := none }

/-- Witness for C2 (Scenario A): 40 days outstanding lands in `"31-60"`. -/
theorem claim_c2_witness :
    days_outstanding_clamped ⟨2025, 10, 12⟩ rowA = some 40
      ∧ aging_category_col ⟨2025, 10, 12⟩ rowA = "31-60" :=
  ⟨((claim_c2 ⟨2025, 10, 12⟩ rowA ⟨2025, 9, 2⟩ rfl).1).trans (by decide),
   (claim_c2 ⟨2025, 10, 12⟩ rowA ⟨2025, 9, 2⟩ rfl).2.2.1 (by decide)⟩

/-- Claim C3: the per-row cash projection per cash option — `Unpaid Only`
keeps exactly the rows with positive outstanding amount (expected payment =
due date, cash = outstanding); `Paid Only` keeps exactly the rows with zero
outstanding amount (expected payment = payment date, cash = payment amount);
`Both Paid and Unpaid` keeps all rows (expected payment = payment date if
present else due date, cash = outstanding unless it is 0, then payment
amount). -/
theorem claim_c3 (rows : List Row) :
    create_cash_df rows "Unpaid Only"
        = (rows.filter (fun r => decide (0 < outstanding_amount r))).map
            (fun r => { row := r, expected_payment := r.due_date,
                        cash_amount := outstanding_amount r })
      ∧ create_cash_df rows "Paid Only"
        = (rows.filter (fun r => decide (outstanding_amount r = 0))).map
            (fun r => { row := r, expected_payment := r.payment_date,
                        cash_amount := payment_amount_filled r })
      ∧ create_cash_df rows "Both Paid and Unpaid"
        = rows.map (fun r =>
            { row := r,
              expected_payment :=
                if r.payment_date.isSome then r.payment_date else r.due_date,
              cash_amount :=
                if outstanding_amount r = 0 then payment_amount_filled r
                else outstanding_amount r }) := by
  refine ⟨by simp [create_cash_df], by simp [create_cash_df], ?_⟩
  apply List.map_congr_left
  intro r _
  cases hp : r.payment_date <;> simp [hp]

/-- An unpaid invoice whose due date is null (unparseable, coerced to `NaT`):
amount 50, no payment. -/
def row_nodue : Row :=
  { customer_name := "B", invoice_number := "2",
    invoice_date := none, due_date := none,
    amount := 50, payment_date := none, payment_amount := none }

/-- Counterexample to claim C4 as stated: under `Unpaid Only` the single
row above is kept by the policy filter with cash amount 50, but its expected
payment date (= due date) is null, the groupby drops it, and the forecast's
bucket sums total 0 ≠ 50. -/
theorem claim_c4_counterexample :
    ¬ (total_expected_cash (cash_forecast "Daily" (create_cash_df [row_nodue] "Unpaid Only"))
        = ((create_cash_df [row_nodue] "Unpaid Only").map (fun cr => cr.cash_amount)).sum) := by
  norm_num [total_expected_cash, cash_forecast, create_cash_df, outstanding_amount,
    clip_lower, payment_amount_filled, row_nodue, List.filter_cons, max_def,
    groupby_sum_dropna, List.filterMap, List.dedup, List.insertionSort]

/-- Claim C4 as amended: for every input table, cash option and bucket
granularity, the sum of the cash-forecast aggregate's bucket amounts equals
the sum of `cash_amount` over the rows kept by the policy filter whose
expected payment date is non-null (rows with a null expected payment date
are dropped by the groupby). -/
theorem claim_c4_amended (rows : List Row) (cash_option bucket : String) :
    total_expected_cash (cash_forecast bucket (create_cash_df rows cash_option))
      = (((create_cash_df rows cash_option).filter
            (fun cr => cr.expected_payment.isSome)).map (fun cr => cr.cash_amount)).sum :=
  cash_forecast_total bucket (create_cash_df rows cash_option)

/-- Claim C5: for every status-filtered table, each aging-bucket sum is
non-negative, the buckets total exactly the table's total outstanding
amount, and the reported `total_outstanding` scalar (the plain sum of the
filtered table's outstanding column) equals that same bucket total. -/
theorem claim_c5 (today : Date) (rows : List Row) :
    (∀ p ∈ aging_summary today rows, 0 ≤ p.2)
      ∧ ((aging_summary today rows).map Prod.snd).sum = total_outstanding rows
      ∧ total_outstanding rows = ((aging_summary today rows).map Prod.snd).sum := by
  have htotal : ((aging_summary today rows).map Prod.snd).sum = total_outstanding rows := by
    rw [aging_summary_eq]
    unfold total_outstanding
    rw [List.map_map]
    exact groupby_total (aging_category_col today) outstanding_amount rows aging_order
      (by decide) (fun r _ => aging_category_mem _)
  refine ⟨?_, htotal, htotal.symm⟩
  intro p hp
  rw [aging_summary_eq] at hp
  rcases List.mem_map.mp hp with ⟨c, _, rfl⟩
  exact List.sum_nonneg (fun x hx => by
    rcases List.mem_map.mp hx with ⟨r, _, rfl⟩
    exact outstanding_amount_nonneg r)

/-- Witness for C5: at a concrete one-row table the `">90"` bucket carries
the row's outstanding amount 50, is a member of the summary, and is
non-negative. -/
theorem claim_c5_witness :
    ((">90", (50 : ℚ)) ∈ aging_summary ⟨2025, 10, 12⟩ [row_nodue])
      ∧ (0 : ℚ) ≤ (((">90", (50 : ℚ)) : String × ℚ)).2 := by
  have hsum : aging_summary ⟨2025, 10, 12⟩ [row_nodue]
      = [("0-30", 0), ("31-60", 0), ("61-90", 0), (">90", 50)] := by
    norm_num [aging_summary, reindex_fill, aging_order, groupby_sum, aging_category_col,
      aging_category, days_outstanding_clamped, days_outstanding, nan_le, row_nodue,
      outstanding_amount, clip_lower, payment_amount_filled, max_def, List.filter_cons,
      List.dedup, List.insertionSort, List.pwFilter, List.find?]
    decide
  have hmem : (">90", (50 : ℚ)) ∈ aging_summary ⟨2025, 10, 12⟩ [row_nodue] := by
    rw [hsum]
    simp
  exact ⟨hmem, (claim_c5 ⟨2025, 10, 12⟩ [row_nodue]).1 _ hmem⟩

/-- Claim C6: for every input table (the empty one and per-customer
restrictions included), the aging summary contains exactly the four fixed
categories in order, with a 0 sum for any category that has no rows. -/
theorem claim_c6 (today : Date) (rows : List Row) (selected_customer : String) :
    ((aging_summary today rows).map Prod.fst = aging_order)
      ∧ ((customer_aging today rows selected_customer).map Prod.fst = aging_order)
      ∧ (∀ c ∈ aging_order,
          rows.filter (fun r => decide (aging_category_col today r = c)) = [] →
            (c, (0 : ℚ)) ∈ aging_summary today rows) := by
  refine ⟨?_, ?_, ?_⟩
  · rw [aging_summary_eq, List.map_map]
    exact List.map_id _
  · unfold customer_aging
    rw [aging_summary_eq, List.map_map]
    exact List.map_id _
  · intro c hc hfil
    rw [aging_summary_eq]
    exact List.mem_map.mpr ⟨c, hc, by simp [hfil]⟩

/-- Witness for C6: on the empty table every category is empty and the
`"0-30"` entry is zero-filled. -/
theorem claim_c6_witness :
    ("0-30", (0 : ℚ)) ∈ aging_summary ⟨2025, 1, 1⟩ ([] : List Row) :=
  (claim_c6 ⟨2025, 1, 1⟩ ([] : List Row) "X").2.2 "0-30" (by decide) rfl

/-- The day count of a date is the day count of the first of its month plus
the (1-based) day offset. -/
theorem toDays_day_offset (e : Date) :
    toDays e = toDays { year := e.year, month := e.month, day := 1 } + (e.day - 1) := by
  simp only [toDays]
  split <;> ring

/-- Scenario C row: one unpaid invoice, amount 50, due on day 3 of a month. -/
def rowC : Row :=
  { customer_name := "A", invoice_number := "1",
    invoice_date := some ⟨2025, 5, 1⟩, due_date := some ⟨2025, 6, 3⟩,
    amount := 50, payment_date := none, payment_amount := none }

/-- Claim C7: the cash-forecast bucket date is the expected payment date
itself under `Daily`; the Monday starting the ISO week containing it under
`Weekly` (a Monday, at most 6 days before it); the first day of its
calendar month under `Monthly`; the forecast is sorted ascending by bucket
date; and Scenario C (one unpaid invoice due on day 3 of a month,
outstanding 50, `Unpaid Only`, `Monthly`) yields exactly one bucket dated
the 1st of that month with amount 50. -/
theorem claim_c7 (e : Date) (bucket : String) (crs : List CashRow) :
    bucket_date "Daily" e = toDays e
      ∧ (bucket_date "Weekly" e + 3) % 7 = 0
      ∧ bucket_date "Weekly" e ≤ toDays e
      ∧ toDays e < bucket_date "Weekly" e + 7
      ∧ bucket_date "Monthly" e = toDays { year := e.year, month := e.month, day := 1 }
      ∧ toDays e = toDays { year := e.year, month := e.month, day := 1 } + (e.day - 1)
      ∧ List.Sorted (· ≤ ·) ((cash_forecast bucket crs).map Prod.fst)
      ∧ cash_forecast "Monthly" (create_cash_df [rowC] "Unpaid Only")
          = [(toDays ⟨2025, 6, 1⟩, 50)] := by
  have hw : bucket_date "Weekly" e = toDays e - (toDays e + 3) % 7 := rfl
  refine ⟨rfl, ?_, ?_, ?_, rfl, toDays_day_offset e, cash_forecast_sorted_keys bucket crs, ?_⟩
  · rw [hw]
    omega
  · rw [hw]
    omega
  · rw [hw]
    omega
  · norm_num [cash_forecast, create_cash_df, outstanding_amount, clip_lower,
      payment_amount_filled, rowC, List.filter_cons, max_def, groupby_sum_dropna,
      bucket_date, List.filterMap, List.dedup, List.insertionSort, toDays,
      List.pwFilter]
    decide

/-- Claim C8: the code at the failing input.  A file whose customer-name,
invoice-number, invoice-date, due-date and amount columns all resolve but
whose payment-date and payment-amount columns are entirely absent is
reported as missing both payment columns, so the pipeline halts with the
missing-columns error (`st.error` + `st.stop`) instead of accepting the file
with payment amounts defaulted to 0. -/
theorem claim_c8_code_behavior :
    upload_missing_cols
        ["Customer Name", "Invoice Number", "Invoice Date", "Due Date", "Amount"]
      = ["payment date", "payment amount"]
      ∧ upload_accepted
          ["Customer Name", "Invoice Number", "Invoice Date", "Due Date", "Amount"]
        = false := by
  constructor <;> decide

/-- Claim C9: a manual-entry submission with an empty customer name or
invoice number, or a due date earlier than the invoice date, is rejected
with the corresponding error message and leaves the accumulator unchanged;
otherwise exactly the submitted record is appended. -/
theorem claim_c9 (state : List ManualEntry) (e : ManualEntry) :
    ((e.customer_name = "" ∨ e.invoice_number = "") →
        manual_form_submit state e
          = (state,
             SubmitOutcome.error_msg "Customer Name and Invoice Number are required."))
      ∧ (¬ (e.customer_name = "" ∨ e.invoice_number = "") →
          date_lt e.due_date e.invoice_date = true →
            manual_form_submit state e
              = (state,
                 SubmitOutcome.error_msg "Due Date cannot be before Invoice Date."))
      ∧ (¬ (e.customer_name = "" ∨ e.invoice_number = "") →
          date_lt e.due_date e.invoice_date = false →
            manual_form_submit state e
              = (state ++ [e],
                 SubmitOutcome.added_msg
                   ("Invoice " ++ e.invoice_number ++ " for " ++ e.customer_name
                     ++ " added!"))) := by
  refine ⟨?_, ?_, ?_⟩
  · intro h1
    simp [manual_form_submit, h1]
  · intro h1 h2
    simp [manual_form_submit, h1, h2]
  · intro h1 h2
    simp [manual_form_submit, h1, h2]

/-- Scenario D entry: due date 2025-01-01 earlier than invoice date
2025-02-01, names present. -/
def entryD : ManualEntry :=
  { customer_name := "Acme", invoice_number := "7",
    invoice_date := ⟨2025, 2, 1⟩, due_date := ⟨2025, 1, 1⟩,
    amount := 100, payment_date := none, payment_amount := 0 }

/-- Witness for C9 (Scenario D): the early-due-date entry is rejected and
nothing is stored. -/
theorem claim_c9_witness :
    manual_form_submit [] entryD
      = ([], SubmitOutcome.error_msg "Due Date cannot be before Invoice Date.") :=
  (claim_c9 [] entryD).2.1 (by decide) (by decide)

/-- Claim C10: a row whose due date is null has null days outstanding (the
clamp does not apply), is assigned the `">90"` category (every `NaN`
comparison is false), and the summary's `">90"` entry is the sum of the
outstanding amounts of exactly the rows in that category — so such a row's
outstanding amount is counted there. -/
theorem claim_c10 (today : Date) (rows : List Row) (r : Row)
    (h : r.due_date = none) :
    days_outstanding_clamped today r = none
      ∧ aging_category_col today r = ">90"
      ∧ (((aging_summary today rows).find? (fun p => decide (p.1 = ">90"))).map
            Prod.snd).getD 0
          = ((rows.filter (fun x => decide (aging_category_col today x = ">90"))).map
              outstanding_amount).sum := by
  refine ⟨?_, ?_, ?_⟩
  · unfold days_outstanding_clamped days_outstanding
    rw [h]
    rfl
  · unfold aging_category_col days_outstanding_clamped days_outstanding
    rw [h]
    rfl
  · rw [aging_summary_eq, find_map_keys]
    have hmem : (">90" : String) ∈ aging_order := by decide
    simp [hmem]

/-- Witness for C10: the concrete null-due-date row has null days
outstanding and lands in `">90"`. -/
theorem claim_c10_witness :
    days_outstanding_clamped ⟨2025, 10, 12⟩ row_nodue = none
      ∧ aging_category_col ⟨2025, 10, 12⟩ row_nodue = ">90" :=
  ⟨(claim_c10 ⟨2025, 10, 12⟩ [row_nodue] row_nodue rfl).1,
   (claim_c10 ⟨2025, 10, 12⟩ [row_nodue] row_nodue rfl).2.1⟩

/-- Witness for C1 at a concrete row: unpaid status iff non-zero
outstanding amount. -/
theorem claim_c1_witness :
    payment_status row_nodue = "Unpaid" ↔ outstanding_amount row_nodue ≠ 0 :=
  (claim_c1 row_nodue).2.2.2

/-- Witness for C3 at a concrete one-row table under `Unpaid Only`. -/
theorem claim_c3_witness :
    create_cash_df [rowC] "Unpaid Only"
      = ([rowC].filter (fun r => decide (0 < outstanding_amount r))).map
          (fun r => { row := r, expected_payment := r.due_date,
                      cash_amount := outstanding_amount r }) :=
  (claim_c3 [rowC]).1

/-- Witness for C7 at a concrete date: the `Daily` bucket is the date
itself. -/
theorem claim_c7_witness :
    bucket_date "Daily" ⟨2025, 6, 3⟩ = toDays ⟨2025, 6, 3⟩ :=
  (claim_c7 ⟨2025, 6, 3⟩ "Daily" []).1
